import Mathlib

/-!
Verification of the logistics optimizer (facility positioning, capacitated
route construction, vehicle-mix selection).

The routing and selection layers are embedded over exact rationals, with the
haversine distances supplied through oracle functions on `RouteOptimizer`
(the source computes them in floating point; none of the claims about the
routing layer depend on the particular distance values).  The clustering step
(`sklearn.KMeans`) is an external library call and enters the embedding as an
explicit label/centroid input.  The haversine formula itself is embedded
separately over the reals.  Python exceptions are modelled with `Except Unit`
(the `optimize` driver catches every exception and returns `None`, modelled
as `none`).
-/

/-- Row of the transport table (`Modal`, `Custo fixo por mês`,
`Custo variável por km`, `Nº entrega por mês`, `Capacidade por entrega (kg)`). -/
structure Vehicle where
  modal : String
  custo_fixo : ℚ
  custo_var_km : ℚ
  entregas_mes : ℚ
  capacidade : ℚ
deriving DecidableEq

/-- Row of the user-supplied fixed fleet table (`Modal`, `Quantidade`). -/
structure FleetRow where
  modal : String
  quantidade : ℚ
deriving DecidableEq

/-- A point of sale: `latitude`, `longitude`, `demanda_kg`. -/
structure PDV where
  latitude : ℚ
  longitude : ℚ
  demanda_kg : ℚ
deriving DecidableEq

/-- Row of the DC configuration table (`Tipos de CD`, `Capacidade (kg)`,
`Custo mensal`).  `optimize` reads only the name and the monthly cost. -/
structure CDRow where
  tipos : String
  capacidade : ℚ
  custo_mensal : ℚ
deriving DecidableEq

/-- Embeds the `DistributionCenter` constructed in `LogisticsOptimizer.optimize`
(src/distribution_center.py): centroid location, size string, monthly cost. -/
structure DistributionCenter where
  latitude : ℚ
  longitude : ℚ
  size : String
  monthly_cost : ℚ
deriving DecidableEq

/-- Value of the `vehicles_used[modal]` dictionary entries built by
`find_best_vehicle_mix`: a count and the routes covered. -/
structure VehicleAlloc where
  count : ℚ
  routes : List (List Nat)
deriving DecidableEq

/-- Return value of `find_best_vehicle_mix` when a solution is found. -/
structure MixSolution where
  routes : List (List Nat)
  vehicles : List (String × VehicleAlloc)
  total_cost : ℚ
deriving DecidableEq

/-- Entry of the `routing_solutions` list assembled by `optimize`. -/
structure RoutingSolution where
  cd_index : Nat
  closest_factory : Nat
  cluster_points : List Nat
  solution : MixSolution
deriving DecidableEq

/-- The solution dictionary returned by `LogisticsOptimizer.optimize`.  The
source stores the distribution centers on `self`; they are carried here as the
`dcs` field so that their sizes can be inspected. -/
structure Solution where
  clusters : List Nat
  transport_costs : ℚ
  storage_costs : ℚ
  total_cost : ℚ
  vehicles : List (String × ℚ)
  routes_per_vehicle : List (String × Nat)
  routing_solutions : List RoutingSolution
  dcs : List DistributionCenter
deriving DecidableEq

/-- State of one `RouteOptimizer` instance: the cluster's point count, each
point's demand, and the haversine distances (DC-to-point and point-to-point)
as oracles standing for the floating-point `calculate_distance` values. -/
structure RouteOptimizer where
  n : Nat
  demand : Nat → ℚ
  distCD : Nat → ℚ
  dist : Nat → Nat → ℚ

/-- Loop of the seed search in `optimize_routes`: running maximum starts at 0,
running best at `None`, and a point replaces the best only when its DC
distance is strictly larger than the running maximum. -/
def findStartPointAux (ro : RouteOptimizer) : List Nat → ℚ → Option Nat → Option Nat
  | [], _, best => best
  | p :: rest, maxD, best =>
    if ro.distCD p > maxD then findStartPointAux ro rest (ro.distCD p) (some p)
    else findStartPointAux ro rest maxD best

/-- Seed selection of `optimize_routes`: the unassigned point farthest from the
DC, or `none` when no point has a strictly positive DC distance. -/
def findStartPoint (ro : RouteOptimizer) (unvisited : List Nat) : Option Nat :=
  findStartPointAux ro unvisited 0 none

/-- Loop of the nearest-extension search: a candidate is skipped when adding it
would exceed the capacity, and replaces the best when strictly closer to the
route's current tail. -/
def findNearestAux (ro : RouteOptimizer) (cap curDemand : ℚ) (pos : Nat) :
    List Nat → Option (ℚ × Nat) → Option Nat
  | [], best => best.map (fun b => b.2)
  | p :: rest, best =>
    if curDemand + ro.demand p > cap then findNearestAux ro cap curDemand pos rest best
    else
      match best with
      | none => findNearestAux ro cap curDemand pos rest (some (ro.dist pos p, p))
      | some (m, q) =>
        if ro.dist pos p < m then findNearestAux ro cap curDemand pos rest (some (ro.dist pos p, p))
        else findNearestAux ro cap curDemand pos rest (some (m, q))

/-- Nearest capacity-feasible unassigned point to the current tail position. -/
def findNearest (ro : RouteOptimizer) (cap curDemand : ℚ) (pos : Nat)
    (unvisited : List Nat) : Option Nat :=
  findNearestAux ro cap curDemand pos unvisited none

/-- Inner `while` loop of `optimize_routes` extending the current route.  The
fuel argument equals the length of `unvisited` at every call site; since each
iteration removes exactly one point, the fuel can never run out before the
loop condition fails, so the fuel-free semantics of the source loop is
preserved exactly. -/
def extendRoute (ro : RouteOptimizer) (cap : ℚ) (maxStops : Nat) :
    Nat → List Nat → List Nat → ℚ → Nat → Nat → List Nat × List Nat
  | 0, unvisited, route, _, _, _ => (route, unvisited)
  | fuel + 1, unvisited, route, curDemand, stops, pos =>
    if unvisited ≠ [] ∧ stops < maxStops then
      match findNearest ro cap curDemand pos unvisited with
      | none => (route, unvisited)
      | some p =>
        extendRoute ro cap maxStops fuel (unvisited.erase p) (route ++ [p])
          (curDemand + ro.demand p) (stops + 1) p
    else (route, unvisited)

/-- Outer `while unvisited` loop of `optimize_routes`: seed a route with the
farthest point, extend it greedily, close it, repeat.  A `none` seed (every
remaining point at DC distance 0) breaks the loop, dropping the remaining
points, exactly as in the source. -/
def optimizeRoutesLoop (ro : RouteOptimizer) (cap : ℚ) (maxStops : Nat) :
    Nat → List Nat → List (List Nat)
  | 0, _ => []
  | fuel + 1, unvisited =>
    if unvisited = [] then []
    else
      match findStartPoint ro unvisited with
      | none => []
      | some s =>
        let u1 := unvisited.erase s
        let res := extendRoute ro cap maxStops u1.length u1 [s] (ro.demand s) 1 s
        res.1 :: optimizeRoutesLoop ro cap maxStops fuel res.2

/-- Embeds `RouteOptimizer.optimize_routes(vehicle_capacity, max_stops_per_day)`
(src/optimizer/route_optimizer.py lines 80-165). -/
def optimize_routes (ro : RouteOptimizer) (cap : ℚ) (maxStops : Nat) : List (List Nat) :=
  if ro.n = 0 then [] else optimizeRoutesLoop ro cap maxStops ro.n (List.range ro.n)

/-- Cumulative demand of a route. -/
def routeSum (ro : RouteOptimizer) (route : List Nat) : ℚ :=
  (route.map ro.demand).sum

/-- Distance between consecutive stops of a route. -/
def consecDistance (ro : RouteOptimizer) : List Nat → ℚ
  | a :: b :: rest => ro.dist a b + consecDistance ro (b :: rest)
  | _ => 0

/-- Cost dictionary returned by `RouteOptimizer.calculate_route_costs`. -/
structure RouteCosts where
  fixed : ℚ
  variableCost : ℚ
  total : ℚ
  distance : ℚ
deriving DecidableEq

/-- Embeds `RouteOptimizer.calculate_route_costs(vehicle, route)`
(src/optimizer/route_optimizer.py lines 167-225): DC to first stop, between
consecutive stops, last stop back to the DC. -/
def calculate_route_costs (ro : RouteOptimizer) (v : Vehicle) (route : List Nat) : RouteCosts :=
  match route with
  | [] => ⟨v.custo_fixo, 0, v.custo_fixo, 0⟩
  | first :: rest =>
    let td := ro.distCD first + consecDistance ro (first :: rest)
      + ro.distCD ((first :: rest).getLastD first)
    ⟨v.custo_fixo, v.custo_var_km * td, v.custo_fixo + v.custo_var_km * td, td⟩

/-- Stable descending insertion by `Capacidade por entrega (kg)`, modelling
`transport_data.sort_values('Capacidade por entrega (kg)', ascending=False)`. -/
def insertDesc (v : Vehicle) : List Vehicle → List Vehicle
  | [] => [v]
  | w :: rest => if w.capacidade < v.capacidade then v :: w :: rest else w :: insertDesc v rest

/-- Vehicle types ordered by descending per-delivery capacity. -/
def sortByCapacityDesc (l : List Vehicle) : List Vehicle :=
  l.foldr insertDesc []

/-- Total demand of the cluster (`cluster_points['demanda_kg'].sum()`). -/
def totalDemand (ro : RouteOptimizer) : ℚ :=
  ((List.range ro.n).map ro.demand).sum

/-- The solution record returned by the free-mode branch of
`find_best_vehicle_mix` for a chosen vehicle and its routes: variable costs
per route plus `ceil(len(routes) / deliveries_per_month)` vehicles at the
type's fixed monthly cost. -/
def mkFreeSolution (ro : RouteOptimizer) (v : Vehicle) (routes : List (List Nat)) : MixSolution :=
  let varCost := routes.foldl (fun acc r => acc + (calculate_route_costs ro v r).variableCost) 0
  let numVehicles : ℤ := ⌈(routes.length : ℚ) / v.entregas_mes⌉
  ⟨routes, [(v.modal, ⟨(numVehicles : ℚ), routes⟩)], varCost + (numVehicles : ℚ) * v.custo_fixo⟩

/-- Free-mode vehicle loop: skip a type unless
`max_stops_by_capacity = capacity / avg_demand_per_point` is at least 4;
route with it; skip when no routes result or when the average stops per route
is below 3; otherwise return.  The division is a numpy float operation
(`avg_demand_per_point` comes from a pandas `Series.sum()`): when `avg = 0`
it yields `inf` for positive capacity, which passes the `>= 4` filter, and
`-inf` or `nan` otherwise, which fail it; since rational division by zero
yields 0 instead, that case is split off explicitly. -/
def freeModeLoop (ro : RouteOptimizer) (avg : ℚ) : List Vehicle → Option MixSolution
  | [] => none
  | v :: rest =>
    if (avg = 0 ∧ 0 < v.capacidade) ∨ (avg ≠ 0 ∧ 4 ≤ v.capacidade / avg) then
      let routes := optimize_routes ro v.capacidade 8
      if routes = [] then freeModeLoop ro avg rest
      else if (((routes.map List.length).sum : ℚ) / (routes.length : ℚ)) < 3 then
        freeModeLoop ro avg rest
      else some (mkFreeSolution ro v routes)
    else freeModeLoop ro avg rest

/-- Free-mode branch of `find_best_vehicle_mix`
(src/optimizer/logistics_optimizer.py lines 99-179).  An empty transport
table raises `IndexError` at the fallback `vehicles.iloc[0]`, surfacing as
`Except.error`. -/
def find_best_vehicle_mix_free (ro : RouteOptimizer) (transport : List Vehicle) :
    Except Unit (Option MixSolution) :=
  let avg := totalDemand ro / (ro.n : ℚ)
  let vehicles := sortByCapacityDesc transport
  match freeModeLoop ro avg vehicles with
  | some s => .ok (some s)
  | none =>
    match vehicles with
    | [] => .error ()
    | v :: _ =>
      let routes := optimize_routes ro v.capacidade 8
      if routes = [] then .ok none else .ok (some (mkFreeSolution ro v routes))

/-- Fixed-fleet loop of `find_best_vehicle_mix`: for every row with
`Quantidade > 0`, look the type up in the transport table (`.iloc[0]` on an
empty selection raises, surfacing as `Except.error`), route the whole cluster
with that type's capacity, and when routes result accumulate their variable
costs plus `Quantidade × Custo fixo por mês`. -/
def fixedFleetLoop (ro : RouteOptimizer) (transport : List Vehicle) :
    List FleetRow → ℚ → List (String × VehicleAlloc) → List (List Nat) →
    Except Unit (ℚ × List (String × VehicleAlloc) × List (List Nat))
  | [], cost, used, allR => .ok (cost, used, allR)
  | row :: rest, cost, used, allR =>
    if 0 < row.quantidade then
      match transport.find? (fun v => v.modal == row.modal) with
      | none => .error ()
      | some vd =>
        let routes := optimize_routes ro vd.capacidade 8
        if routes = [] then fixedFleetLoop ro transport rest cost used allR
        else
          let rc := routes.foldl (fun acc r => acc + (calculate_route_costs ro vd r).variableCost) 0
          fixedFleetLoop ro transport rest (cost + rc + row.quantidade * vd.custo_fixo)
            (used ++ [(row.modal, ⟨row.quantidade, routes⟩)]) (allR ++ routes)
    else fixedFleetLoop ro transport rest cost used allR

/-- Fixed-fleet branch of `find_best_vehicle_mix`
(src/optimizer/logistics_optimizer.py lines 56-97). -/
def find_best_vehicle_mix_fixed (ro : RouteOptimizer) (transport : List Vehicle)
    (fleet : List FleetRow) : Except Unit (Option MixSolution) :=
  match fixedFleetLoop ro transport fleet 0 [] [] with
  | .error e => .error e
  | .ok (cost, used, allR) =>
    if used = [] then .ok none else .ok (some ⟨allR, used, cost⟩)

/-- Embeds `LogisticsOptimizer.find_best_vehicle_mix(cluster_points,
route_optimizer, fixed_fleet)` (src/optimizer/logistics_optimizer.py lines
44-179).  `.ok none` is the source's `return None`; `.error ()` is an
uncaught exception inside the call. -/
def find_best_vehicle_mix (ro : RouteOptimizer) (transport : List Vehicle)
    (fixed_fleet : Option (List FleetRow)) : Except Unit (Option MixSolution) :=
  if ro.n = 0 then .ok none
  else
    match fixed_fleet with
    | some fleet => find_best_vehicle_mix_fixed ro transport fleet
    | none => find_best_vehicle_mix_free ro transport

/-- Indices of the PDVs assigned to cluster `i` (`self.pdv_data[clusters == i]`,
order preserved).  `labels` is the `kmeans.fit_predict` output. -/
def clusterMembers (numPdvs : Nat) (labels : List Nat) (i : Nat) : List Nat :=
  (List.range numPdvs).filter (fun j => labels.get? j = some i)

/-- The `RouteOptimizer` instance built in `optimize` for one cluster: routes
use positional indices into the cluster's point list; its demands and distance
oracles are obtained by restricting the global ones through `members`. -/
def mkRO (pdvs : List PDV) (members : List Nat) (dcd : Nat → ℚ)
    (pdist : Nat → Nat → ℚ) : RouteOptimizer :=
  { n := members.length
    demand := fun k => (pdvs.getD (members.getD k 0) ⟨0, 0, 0⟩).demanda_kg
    distCD := fun k => dcd (members.getD k 0)
    dist := fun k l => pdist (members.getD k 0) (members.getD l 0) }

/-- Index of the factory closest to DC `i`
(`min(self.factories, key=...)`, first minimum on ties). -/
def closestFactory (fcDist : Nat → Nat → ℚ) (numF : Nat) (i : Nat) : Nat :=
  (List.range numF).foldl (fun best f => if fcDist f i < fcDist best i then f else best) 0

/-- Adds `v` to the entry of key `k` in a rational-valued counter table
(`vehicle_counts[modal] += info['count']`). -/
def bumpQ (l : List (String × ℚ)) (k : String) (v : ℚ) : List (String × ℚ) :=
  l.map (fun p => if p.1 = k then (p.1, p.2 + v) else p)

/-- Adds `v` to the entry of key `k` in a natural-valued counter table
(`vehicle_routes[modal] += len(info['routes'])`). -/
def bumpN (l : List (String × Nat)) (k : String) (v : Nat) : List (String × Nat) :=
  l.map (fun p => if p.1 = k then (p.1, p.2 + v) else p)

/-- Accumulators threaded through the per-DC loop of `optimize`. -/
structure OptAcc where
  transport_costs : ℚ
  counts : List (String × ℚ)
  routeCounts : List (String × Nat)
  routing : List RoutingSolution

/-- Accumulation performed for one DC whose cluster produced a solution. -/
def accumulate (acc : OptAcc) (i cf : Nat) (members : List Nat) (sol : MixSolution) : OptAcc :=
  { transport_costs := acc.transport_costs + sol.total_cost
    counts := sol.vehicles.foldl (fun cs ma => bumpQ cs ma.1 ma.2.count) acc.counts
    routeCounts := sol.vehicles.foldl (fun cs ma => bumpN cs ma.1 ma.2.routes.length) acc.routeCounts
    routing := acc.routing ++ [⟨i, cf, members, sol⟩] }

/-- Per-DC loop of `optimize` (src/optimizer/logistics_optimizer.py lines
220-255).  `min` over an empty factory list raises (`none` aborts the run, as
the `except` clause turns any exception into `None`); a cluster whose
`find_best_vehicle_mix` returns `None` is silently skipped. -/
def optimizeClusters (pdvs : List PDV) (transport : List Vehicle) (labels : List Nat)
    (fixed_fleet : Option (List FleetRow)) (pdist cdDist fcDist : Nat → Nat → ℚ)
    (numF : Nat) : List Nat → OptAcc → Option OptAcc
  | [], acc => some acc
  | i :: rest, acc =>
    if numF = 0 then none
    else
      let members := clusterMembers pdvs.length labels i
      match find_best_vehicle_mix (mkRO pdvs members (cdDist i) pdist) transport fixed_fleet with
      | .error _ => none
      | .ok none => optimizeClusters pdvs transport labels fixed_fleet pdist cdDist fcDist numF rest acc
      | .ok (some sol) =>
        optimizeClusters pdvs transport labels fixed_fleet pdist cdDist fcDist numF rest
          (accumulate acc i (closestFactory fcDist numF i) members sol)

/-- The distribution centers built at the top of `optimize`: centroid `i` with
the size name and monthly cost of row `i` of the DC table. -/
def mkDCs (cd_data : List CDRow) (centroids : List (ℚ × ℚ)) : List DistributionCenter :=
  (List.range cd_data.length).map (fun i =>
    ⟨(centroids.getD i (0, 0)).1, (centroids.getD i (0, 0)).2,
     (cd_data.getD i ⟨"", 0, 0⟩).tipos, (cd_data.getD i ⟨"", 0, 0⟩).custo_mensal⟩)

/-- Storage cost: sum of the monthly fixed cost over all distribution centers. -/
def storageCosts (dcs : List DistributionCenter) : ℚ :=
  (dcs.map (fun d => d.monthly_cost)).sum

/-- Initial counters of `optimize`: one zero entry per transport-table modal. -/
def initAcc (transport : List Vehicle) : OptAcc :=
  ⟨0, transport.map (fun v => (v.modal, (0 : ℚ))), transport.map (fun v => (v.modal, (0 : Nat))), []⟩

/-- Final assembly of the solution dictionary: `None` when not a single DC
produced a routing solution, otherwise the record with
`total_cost = transport_costs + storage_costs`. -/
def assembleSolution (labels : List Nat) (dcs : List DistributionCenter) (storage : ℚ)
    (acc : OptAcc) : Option Solution :=
  if acc.routing = [] then none
  else some { clusters := labels, transport_costs := acc.transport_costs,
              storage_costs := storage, total_cost := acc.transport_costs + storage,
              vehicles := acc.counts,
              routes_per_vehicle := acc.routeCounts.filter (fun p => 0 < p.2),
              routing_solutions := acc.routing, dcs := dcs }

/-- Embeds `LogisticsOptimizer.optimize(fixed_fleet)`
(src/optimizer/logistics_optimizer.py lines 181-280).  The `KMeans` clustering
is an unseeded external call; its outputs enter as the `labels` and
`centroids` arguments, and the floating-point haversine values as the
`pdist`/`cdDist`/`fcDist` oracles. -/
def optimize (pdvs : List PDV) (transport : List Vehicle) (cd_data : List CDRow)
    (numF : Nat) (fcDist : Nat → Nat → ℚ) (labels : List Nat) (centroids : List (ℚ × ℚ))
    (pdist cdDist : Nat → Nat → ℚ) (fixed_fleet : Option (List FleetRow)) : Option Solution :=
  Option.bind
    (optimizeClusters pdvs transport labels fixed_fleet pdist cdDist fcDist numF
      (List.range cd_data.length) (initAcc transport))
    (assembleSolution labels (mkDCs cd_data centroids) (storageCosts (mkDCs cd_data centroids)))

/-- Total demand of the PDVs assigned to cluster `i`, for stating the DC
capacity claim. -/
def clusterDemand (pdvs : List PDV) (labels : List Nat) (i : Nat) : ℚ :=
  ((clusterMembers pdvs.length labels i).map (fun j => (pdvs.getD j ⟨0, 0, 0⟩).demanda_kg)).sum

/-- Degrees to radians, as `math.radians` / `np.radians`. -/
noncomputable def rad (x : ℝ) : ℝ := x * Real.pi / 180

/-- The haversine intermediate
`a = sin(dlat/2)**2 + cos(lat1) * cos(lat2) * sin(dlon/2)**2`, common to
src/distance_calculator.py and `RouteOptimizer.calculate_distance`.  Neither
implementation clamps it to `[0, 1]`. -/
noncomputable def havA (lat1 lon1 lat2 lon2 : ℝ) : ℝ :=
  Real.sin ((rad lat2 - rad lat1) / 2) ^ 2
    + Real.cos (rad lat1) * Real.cos (rad lat2) * Real.sin ((rad lon2 - rad lon1) / 2) ^ 2

/-- Two-argument arctangent as `math.atan2`. -/
noncomputable def atan2 (y x : ℝ) : ℝ :=
  if 0 < x then Real.arctan (y / x)
  else if x < 0 then
    (if 0 ≤ y then Real.arctan (y / x) + Real.pi else Real.arctan (y / x) - Real.pi)
  else if 0 < y then Real.pi / 2
  else if y < 0 then -(Real.pi / 2)
  else 0

/-- Embeds `haversine_distance` (src/distance_calculator.py lines 3-28):
`c = 2 * atan2(sqrt(a), sqrt(1-a))`, distance `= 6371 * c`.  The intermediate
`a` is used unclamped. -/
noncomputable def haversine_distance (lat1 lon1 lat2 lon2 : ℝ) : ℝ :=
  6371 * (2 * atan2 (Real.sqrt (havA lat1 lon1 lat2 lon2))
    (Real.sqrt (1 - havA lat1 lon1 lat2 lon2)))

/-- Embeds `RouteOptimizer.calculate_distance`
(src/optimizer/route_optimizer.py lines 24-34): `c = 2 * arcsin(sqrt(a))`,
distance `= 6371 * c`, again with `a` unclamped. -/
noncomputable def calculate_distance (lat1 lon1 lat2 lon2 : ℝ) : ℝ :=
  6371 * (2 * Real.arcsin (Real.sqrt (havA lat1 lon1 lat2 lon2)))

/-- The `Van` row of the default transport table in src/app.py. -/
def van : Vehicle := ⟨"Van", 7000, 1, 176, 1200⟩

/-- The `Truck` row of the default transport table in src/app.py. -/
def truck : Vehicle := ⟨"Truck", 15000, 3, 176, 12000⟩

/-- Concrete cluster: one PDV with demand 100 at DC distance 1. -/
def roA : RouteOptimizer := ⟨1, fun _ => 100, fun _ => 1, fun _ _ => 0⟩

/-- Transport table with two vehicle types. -/
def transA : List Vehicle := [van, truck]

/-- Fixed fleet requesting one Van and one Truck. -/
def fleetA : List FleetRow := [⟨"Van", 1⟩, ⟨"Truck", 1⟩]

/-- Concrete cluster: one PDV whose demand 2 exceeds the capacity ceiling 1. -/
def ro1 : RouteOptimizer := ⟨1, fun _ => 2, fun _ => 1, fun _ _ => 0⟩

/-- Concrete cluster: two unit-demand PDVs at distinct DC distances. -/
def ro2 : RouteOptimizer := ⟨2, fun _ => 1, fun i => (i : ℚ) + 1, fun _ _ => 1⟩

/-- Concrete cluster: two PDVs of demand 600 each (two routes under capacity
1000). -/
def roD : RouteOptimizer := ⟨2, fun _ => 600, fun i => (i : ℚ) + 1, fun _ _ => 1⟩

/-- A truck with one delivery per month, for the vehicle-count counterexample. -/
def truckD : Vehicle := ⟨"Truck", 100, 1, 1, 1000⟩

/-- Concrete cluster: one PDV at DC distance exactly 0 (a singleton cluster
whose centroid coincides with its point). -/
def ro0 : RouteOptimizer := ⟨1, fun _ => 100, fun _ => 0, fun _ _ => 0⟩

/-- One PDV with demand 100, for whole-run witnesses. -/
def pdvsB : List PDV := [⟨0, 0, 100⟩]

/-- One large DC row. -/
def cdB : List CDRow := [⟨"CD grande", 1500000, 50000⟩]

/-- One PDV whose demand 200000 exceeds the small-DC capacity 150000. -/
def pdvsF : List PDV := [⟨0, 0, 200000⟩]

/-- Two PDVs of demand 100000 each at distinct longitudes: KMeans with k = 1
puts both in one cluster whose centroid is their midpoint (0, 0), so both lie
at strictly positive haversine distance from the DC, and their combined
demand 200000 exceeds the small-DC capacity 150000. -/
def pdvsF2 : List PDV := [⟨0, -1/100, 100000⟩, ⟨0, 1/100, 100000⟩]

/-- One small DC row (capacity 150000). -/
def cdF : List CDRow := [⟨"CD pequeno", 150000, 20000⟩]

/-- A transport table whose single type carries 300000 kg per delivery. -/
def transF : List Vehicle := [⟨"Truck", 15000, 3, 176, 300000⟩]

/-- Fixed fleet specifying zero vehicles of every type. -/
def fleetG : List FleetRow := [⟨"Van", 0⟩, ⟨"Truck", 0⟩]

/-- Expected fixed-mode result for `roA`/`transA`/`fleetA`: the single PDV 0
appears in a route of each of the two vehicle types. -/
def mixA : MixSolution :=
  ⟨[[0], [0]], [("Van", ⟨1, [[0]]⟩), ("Truck", ⟨1, [[0]]⟩)], 22008⟩

/-- Expected free-mode result for `roA` with the Van alone. -/
def mixV : MixSolution := ⟨[[0]], [("Van", ⟨1, [[0]]⟩)], 7002⟩

/-- Expected fixed-mode result for `roD`/`truckD` with one Truck: two routes
but a reported count of 1. -/
def mixD : MixSolution := ⟨[[1], [0]], [("Truck", ⟨1, [[1], [0]]⟩)], 106⟩

/-- Expected Solution of the single-DC free-mode run on `pdvsB`. -/
def solB : Solution :=
  ⟨[0], 7002, 50000, 57002, [("Van", 1)], [("Van", 1)],
   [⟨0, 0, [0], mixV⟩], [⟨1, 1, "CD grande", 50000⟩]⟩

/-- A seed returned by the seed-search loop is among the candidates or was the
incoming best. -/
lemma findStartPointAux_mem (ro : RouteOptimizer) (l : List Nat) :
    ∀ (maxD : ℚ) (best : Option Nat) (p : Nat),
      findStartPointAux ro l maxD best = some p → p ∈ l ∨ best = some p := by
  induction l with
  | nil => intro maxD best p h; exact Or.inr h
  | cons q rest ih =>
    intro maxD best p h
    simp only [findStartPointAux] at h
    by_cases hc : ro.distCD q > maxD
    · rw [if_pos hc] at h
      rcases ih _ _ _ h with h1 | h1
      · exact Or.inl (List.mem_cons_of_mem _ h1)
      · injection h1 with h2
        subst h2
        exact Or.inl (List.mem_cons_self _ _)
    · rw [if_neg hc] at h
      rcases ih _ _ _ h with h1 | h1
      · exact Or.inl (List.mem_cons_of_mem _ h1)
      · exact Or.inr h1

/-- The selected seed is an unvisited point. -/
lemma findStartPoint_mem (ro : RouteOptimizer) (l : List Nat) (p : Nat)
    (h : findStartPoint ro l = some p) : p ∈ l := by
  rcases findStartPointAux_mem ro l 0 none p h with h1 | h1
  · exact h1
  · cases h1

/-- Once a best candidate exists the seed search cannot come back empty. -/
lemma findStartPointAux_isSome (ro : RouteOptimizer) (l : List Nat) :
    ∀ (maxD : ℚ) (q : Nat), ∃ p, findStartPointAux ro l maxD (some q) = some p := by
  induction l with
  | nil => intro maxD q; exact ⟨q, rfl⟩
  | cons a rest ih =>
    intro maxD q
    simp only [findStartPointAux]
    by_cases hc : ro.distCD a > maxD
    · rw [if_pos hc]; exact ih _ _
    · rw [if_neg hc]; exact ih _ _

/-- A candidate strictly beyond the running maximum guarantees a seed. -/
lemma findStartPointAux_exists (ro : RouteOptimizer) (l : List Nat) :
    ∀ (maxD : ℚ) (best : Option Nat), (∃ p ∈ l, maxD < ro.distCD p) →
      ∃ r, findStartPointAux ro l maxD best = some r := by
  induction l with
  | nil =>
    intro maxD best h
    obtain ⟨p, hp, _⟩ := h
    cases hp
  | cons a rest ih =>
    intro maxD best h
    simp only [findStartPointAux]
    by_cases hc : ro.distCD a > maxD
    · rw [if_pos hc]; exact findStartPointAux_isSome ro rest _ _
    · rw [if_neg hc]
      obtain ⟨p, hp, hlt⟩ := h
      rcases List.mem_cons.mp hp with rfl | hp2
      · exact absurd hlt hc
      · exact ih _ _ ⟨p, hp2, hlt⟩

/-- A point returned by the extension search is an unvisited candidate or was
the incoming best. -/
lemma findNearestAux_mem (ro : RouteOptimizer) (cap d : ℚ) (pos : Nat) (l : List Nat) :
    ∀ (best : Option (ℚ × Nat)) (p : Nat),
      findNearestAux ro cap d pos l best = some p → p ∈ l ∨ ∃ m, best = some (m, p) := by
  induction l with
  | nil =>
    intro best p h
    cases best with
    | none => simp [findNearestAux] at h
    | some b =>
      obtain ⟨m, q⟩ := b
      simp only [findNearestAux, Option.map_some'] at h
      injection h with h2
      subst h2
      exact Or.inr ⟨m, rfl⟩
  | cons a rest ih =>
    intro best p h
    cases best with
    | none =>
      simp only [findNearestAux] at h
      by_cases hskip : d + ro.demand a > cap
      · rw [if_pos hskip] at h
        rcases ih _ _ h with h1 | h1
        · exact Or.inl (List.mem_cons_of_mem _ h1)
        · obtain ⟨m, hm⟩ := h1; cases hm
      · rw [if_neg hskip] at h
        rcases ih _ _ h with h1 | h1
        · exact Or.inl (List.mem_cons_of_mem _ h1)
        · obtain ⟨m, hm⟩ := h1
          injection hm with hm2
          injection hm2 with hm3 hm4
          subst hm4
          exact Or.inl (List.mem_cons_self _ _)
    | some b =>
      obtain ⟨m0, q0⟩ := b
      simp only [findNearestAux] at h
      by_cases hskip : d + ro.demand a > cap
      · rw [if_pos hskip] at h
        rcases ih _ _ h with h1 | h1
        · exact Or.inl (List.mem_cons_of_mem _ h1)
        · exact Or.inr h1
      · rw [if_neg hskip] at h
        by_cases hlt : ro.dist pos a < m0
        · rw [if_pos hlt] at h
          rcases ih _ _ h with h1 | h1
          · exact Or.inl (List.mem_cons_of_mem _ h1)
          · obtain ⟨m, hm⟩ := h1
            injection hm with hm2
            injection hm2 with hm3 hm4
            subst hm4
            exact Or.inl (List.mem_cons_self _ _)
        · rw [if_neg hlt] at h
          rcases ih _ _ h with h1 | h1
          · exact Or.inl (List.mem_cons_of_mem _ h1)
          · obtain ⟨m, hm⟩ := h1
            injection hm with hm2
            injection hm2 with hm3 hm4
            subst hm4
            exact Or.inr ⟨m0, rfl⟩

/-- The extension search only returns capacity-feasible points: the running
best always satisfies the capacity check that admitted it. -/
lemma findNearestAux_cap (ro : RouteOptimizer) (cap d : ℚ) (pos : Nat) (l : List Nat) :
    ∀ (best : Option (ℚ × Nat)) (p : Nat),
      (∀ m q, best = some (m, q) → d + ro.demand q ≤ cap) →
      findNearestAux ro cap d pos l best = some p → d + ro.demand p ≤ cap := by
  induction l with
  | nil =>
    intro best p hbest h
    cases best with
    | none => simp [findNearestAux] at h
    | some b =>
      obtain ⟨m, q⟩ := b
      simp only [findNearestAux, Option.map_some'] at h
      injection h with h2
      subst h2
      exact hbest m q rfl
  | cons a rest ih =>
    intro best p hbest h
    cases best with
    | none =>
      simp only [findNearestAux] at h
      by_cases hskip : d + ro.demand a > cap
      · rw [if_pos hskip] at h
        exact ih _ _ (fun m q hq => by cases hq) h
      · rw [if_neg hskip] at h
        refine ih _ _ ?_ h
        intro m q hq
        injection hq with hq2
        injection hq2 with hq3 hq4
        subst hq4
        exact le_of_not_lt hskip
    | some b =>
      obtain ⟨m0, q0⟩ := b
      simp only [findNearestAux] at h
      by_cases hskip : d + ro.demand a > cap
      · rw [if_pos hskip] at h
        exact ih _ _ hbest h
      · rw [if_neg hskip] at h
        by_cases hlt : ro.dist pos a < m0
        · rw [if_pos hlt] at h
          refine ih _ _ ?_ h
          intro m q hq
          injection hq with hq2
          injection hq2 with hq3 hq4
          subst hq4
          exact le_of_not_lt hskip
        · rw [if_neg hlt] at h
          refine ih _ _ ?_ h
          intro m q hq
          injection hq with hq2
          injection hq2 with hq3 hq4
          subst hq4
          exact hbest m0 q0 rfl

/-- The point chosen to extend a route is an unvisited point. -/
lemma findNearest_mem (ro : RouteOptimizer) (cap d : ℚ) (pos : Nat) (l : List Nat) (p : Nat)
    (h : findNearest ro cap d pos l = some p) : p ∈ l := by
  rcases findNearestAux_mem ro cap d pos l none p h with h1 | h1
  · exact h1
  · obtain ⟨m, hm⟩ := h1; cases hm

/-- The point chosen to extend a route passed the capacity check. -/
lemma findNearest_cap (ro : RouteOptimizer) (cap d : ℚ) (pos : Nat) (l : List Nat) (p : Nat)
    (h : findNearest ro cap d pos l = some p) : d + ro.demand p ≤ cap :=
  findNearestAux_cap ro cap d pos l none p (fun m q hq => by cases hq) h

/-- Demand of a route splits over appended segments. -/
lemma routeSum_append (ro : RouteOptimizer) (l1 l2 : List Nat) :
    routeSum ro (l1 ++ l2) = routeSum ro l1 + routeSum ro l2 := by
  unfold routeSum
  rw [List.map_append, List.sum_append]

/-- The unvisited points left after extending a route were unvisited before. -/
lemma extendRoute_snd_subset (ro : RouteOptimizer) (cap : ℚ) (maxStops : Nat) :
    ∀ (fuel : Nat) (u route : List Nat) (d : ℚ) (stops pos : Nat),
      (extendRoute ro cap maxStops fuel u route d stops pos).2 ⊆ u := by
  intro fuel
  induction fuel with
  | zero =>
    intro u route d stops pos
    simp only [extendRoute]
    exact List.Subset.refl u
  | succ f ih =>
    intro u route d stops pos
    simp only [extendRoute]
    by_cases hc : u ≠ [] ∧ stops < maxStops
    · rw [if_pos hc]
      cases hfn : findNearest ro cap d pos u with
      | none => exact List.Subset.refl u
      | some p => exact fun x hx => List.erase_subset _ _ (ih _ _ _ _ _ hx)
    · rw [if_neg hc]
      exact List.Subset.refl u

/-- Extending a route keeps its cumulative demand at or below the capacity,
provided the demand accumulated so far does. -/
lemma extendRoute_routeSum (ro : RouteOptimizer) (cap : ℚ) (maxStops : Nat) :
    ∀ (fuel : Nat) (u route : List Nat) (d : ℚ) (stops pos : Nat),
      routeSum ro route = d → d ≤ cap →
      routeSum ro (extendRoute ro cap maxStops fuel u route d stops pos).1 ≤ cap := by
  intro fuel
  induction fuel with
  | zero =>
    intro u route d stops pos hsum hle
    simp only [extendRoute]
    rw [hsum]
    exact hle
  | succ f ih =>
    intro u route d stops pos hsum hle
    simp only [extendRoute]
    by_cases hc : u ≠ [] ∧ stops < maxStops
    · rw [if_pos hc]
      cases hfn : findNearest ro cap d pos u with
      | none =>
        rw [hsum]
        exact hle
      | some p =>
        refine ih _ _ _ _ _ ?_ (findNearest_cap ro cap d pos u p hfn)
        rw [routeSum_append, hsum]
        simp [routeSum]
    · rw [if_neg hc]
      rw [hsum]
      exact hle

/-- Extending a route keeps its stop count at or below the ceiling, provided
the stop counter tracks the route length and is within the ceiling. -/
lemma extendRoute_length (ro : RouteOptimizer) (cap : ℚ) (maxStops : Nat) :
    ∀ (fuel : Nat) (u route : List Nat) (d : ℚ) (stops pos : Nat),
      route.length = stops → stops ≤ maxStops →
      (extendRoute ro cap maxStops fuel u route d stops pos).1.length ≤ maxStops := by
  intro fuel
  induction fuel with
  | zero =>
    intro u route d stops pos hlen hle
    simp only [extendRoute]
    rw [hlen]
    exact hle
  | succ f ih =>
    intro u route d stops pos hlen hle
    simp only [extendRoute]
    by_cases hc : u ≠ [] ∧ stops < maxStops
    · rw [if_pos hc]
      cases hfn : findNearest ro cap d pos u with
      | none =>
        rw [hlen]
        exact hle
      | some p =>
        refine ih _ _ _ _ _ ?_ hc.2
        rw [List.length_append, hlen]
        rfl
    · rw [if_neg hc]
      rw [hlen]
      exact hle

/-- Every route emitted by the outer routing loop respects the capacity and
the stop-count ceiling, provided every single unvisited point fits in the
vehicle on its own (the seed is added without a capacity check). -/
lemma optimizeRoutesLoop_bounds (ro : RouteOptimizer) (cap : ℚ) (maxStops : Nat)
    (hm : 1 ≤ maxStops) :
    ∀ (fuel : Nat) (u : List Nat), (∀ p ∈ u, ro.demand p ≤ cap) →
      ∀ r ∈ optimizeRoutesLoop ro cap maxStops fuel u,
        routeSum ro r ≤ cap ∧ r.length ≤ maxStops := by
  intro fuel
  induction fuel with
  | zero =>
    intro u hu r hr
    simp [optimizeRoutesLoop] at hr
  | succ f ih =>
    intro u hu r hr
    simp only [optimizeRoutesLoop] at hr
    by_cases hnil : u = []
    · rw [if_pos hnil] at hr
      cases hr
    · rw [if_neg hnil] at hr
      cases hs : findStartPoint ro u with
      | none =>
        rw [hs] at hr
        cases hr
      | some s =>
        rw [hs] at hr
        simp only [] at hr
        rcases List.mem_cons.mp hr with rfl | hr2
        · constructor
          · refine extendRoute_routeSum ro cap maxStops _ _ _ _ _ _ ?_ ?_
            · simp [routeSum]
            · exact hu s (findStartPoint_mem ro u s hs)
          · exact extendRoute_length ro cap maxStops _ _ _ _ _ _ (by rfl) hm
        · refine ih _ ?_ r hr2
          intro p hp
          exact hu p (List.erase_subset _ _ (extendRoute_snd_subset ro cap maxStops _ _ _ _ _ _ hp))

/-- Every route emitted by the outer routing loop respects the stop-count
ceiling unconditionally: the seed counts as one stop, and extension only
happens while `current_stops < max_stops_per_day`. -/
lemma optimizeRoutesLoop_length (ro : RouteOptimizer) (cap : ℚ) (maxStops : Nat)
    (hm : 1 ≤ maxStops) :
    ∀ (fuel : Nat) (u : List Nat), ∀ r ∈ optimizeRoutesLoop ro cap maxStops fuel u,
      r.length ≤ maxStops := by
  intro fuel
  induction fuel with
  | zero =>
    intro u r hr
    simp [optimizeRoutesLoop] at hr
  | succ f ih =>
    intro u r hr
    simp only [optimizeRoutesLoop] at hr
    by_cases hnil : u = []
    · rw [if_pos hnil] at hr
      cases hr
    · rw [if_neg hnil] at hr
      cases hs : findStartPoint ro u with
      | none =>
        rw [hs] at hr
        cases hr
      | some s =>
        rw [hs] at hr
        simp only [] at hr
        rcases List.mem_cons.mp hr with rfl | hr2
        · exact extendRoute_length ro cap maxStops _ _ _ _ _ _ (by rfl) hm
        · exact ih _ r hr2

/-- When the cluster is non-empty and some point lies at a strictly positive
distance from the DC, at least one route is produced. -/
lemma optimize_routes_ne_nil (ro : RouteOptimizer) (cap : ℚ) (maxStops : Nat)
    (hn : ro.n ≠ 0) (hpos : ∃ p, p < ro.n ∧ 0 < ro.distCD p) :
    optimize_routes ro cap maxStops ≠ [] := by
  unfold optimize_routes
  rw [if_neg hn]
  obtain ⟨f, hf⟩ : ∃ f, ro.n = f + 1 :=
    ⟨ro.n - 1, (Nat.succ_pred_eq_of_pos (Nat.pos_of_ne_zero hn)).symm⟩
  rw [hf]
  simp only [optimizeRoutesLoop]
  rw [if_neg (by simp [List.range_eq_nil])]
  obtain ⟨p, hp, hd⟩ := hpos
  obtain ⟨r, hr⟩ := findStartPointAux_exists ro (List.range (f + 1)) 0 none
    ⟨p, List.mem_range.mpr (hf ▸ hp), hd⟩
  cases hsp : findStartPoint ro (List.range (f + 1)) with
  | none =>
    rw [findStartPoint] at hsp
    rw [hsp] at hr
    cases hr
  | some s => simp

/-- Membership is preserved by one descending insertion. -/
lemma insertDesc_mem (v : Vehicle) (l : List Vehicle) (x : Vehicle) :
    x ∈ insertDesc v l → x = v ∨ x ∈ l := by
  induction l with
  | nil =>
    intro h
    exact Or.inl (List.mem_singleton.mp h)
  | cons w rest ih =>
    simp only [insertDesc]
    by_cases hc : w.capacidade < v.capacidade
    · rw [if_pos hc]
      intro h
      rcases List.mem_cons.mp h with rfl | h2
      · exact Or.inl rfl
      · exact Or.inr h2
    · rw [if_neg hc]
      intro h
      rcases List.mem_cons.mp h with rfl | h2
      · exact Or.inr (List.mem_cons_self _ _)
      · rcases ih h2 with h3 | h3
        · exact Or.inl h3
        · exact Or.inr (List.mem_cons_of_mem _ h3)

/-- Every vehicle of the sorted table comes from the original table. -/
lemma sortByCapacityDesc_mem (l : List Vehicle) (x : Vehicle) :
    x ∈ sortByCapacityDesc l → x ∈ l := by
  induction l with
  | nil => intro h; exact h
  | cons v rest ih =>
    intro h
    rcases insertDesc_mem v _ x h with rfl | h2
    · exact List.mem_cons_self _ _
    · exact List.mem_cons_of_mem _ (ih h2)

/-- Inserting into a list never yields the empty list. -/
lemma insertDesc_ne_nil (v : Vehicle) (l : List Vehicle) : insertDesc v l ≠ [] := by
  cases l with
  | nil => simp [insertDesc]
  | cons w rest =>
    simp only [insertDesc]
    by_cases hc : w.capacidade < v.capacidade
    · rw [if_pos hc]; simp
    · rw [if_neg hc]; simp

/-- Sorting a non-empty transport table yields a non-empty list. -/
lemma sortByCapacityDesc_ne_nil (l : List Vehicle) (h : l ≠ []) :
    sortByCapacityDesc l ≠ [] := by
  cases l with
  | nil => exact absurd rfl h
  | cons v rest => exact insertDesc_ne_nil v _

/-- Any solution produced by the free-mode vehicle loop is the standard record
for one vehicle of the candidate list and its non-empty route set. -/
lemma freeModeLoop_some (ro : RouteOptimizer) (avg : ℚ) (l : List Vehicle) :
    ∀ s, freeModeLoop ro avg l = some s →
      ∃ v ∈ l, ∃ routes, routes ≠ [] ∧ s = mkFreeSolution ro v routes := by
  induction l with
  | nil => intro s h; simp [freeModeLoop] at h
  | cons v rest ih =>
    intro s h
    simp only [freeModeLoop] at h
    by_cases h4 : (avg = 0 ∧ 0 < v.capacidade) ∨ (avg ≠ 0 ∧ 4 ≤ v.capacidade / avg)
    · rw [if_pos h4] at h
      by_cases hre : optimize_routes ro v.capacidade 8 = []
      · rw [if_pos hre] at h
        obtain ⟨w, hw, routes, hne, hs⟩ := ih s h
        exact ⟨w, List.mem_cons_of_mem _ hw, routes, hne, hs⟩
      · rw [if_neg hre] at h
        by_cases hav : ((((optimize_routes ro v.capacidade 8).map List.length).sum : ℚ) /
            ((optimize_routes ro v.capacidade 8).length : ℚ)) < 3
        · rw [if_pos hav] at h
          obtain ⟨w, hw, routes, hne, hs⟩ := ih s h
          exact ⟨w, List.mem_cons_of_mem _ hw, routes, hne, hs⟩
        · rw [if_neg hav] at h
          injection h with h2
          exact ⟨v, List.mem_cons_self _ _, optimize_routes ro v.capacidade 8, hre, h2.symm⟩
    · rw [if_neg h4] at h
      obtain ⟨w, hw, routes, hne, hs⟩ := ih s h
      exact ⟨w, List.mem_cons_of_mem _ hw, routes, hne, hs⟩

/-- Any solution returned by the free-mode selector is the standard record for
one vehicle of the transport table and a non-empty route set. -/
lemma fbvm_free_shape (ro : RouteOptimizer) (transport : List Vehicle) (s : MixSolution)
    (h : find_best_vehicle_mix ro transport none = .ok (some s)) :
    ∃ v ∈ transport, ∃ routes, routes ≠ [] ∧ s = mkFreeSolution ro v routes := by
  by_cases h0 : ro.n = 0
  · simp only [find_best_vehicle_mix, if_pos h0] at h
    injection h with h2
    cases h2
  · simp only [find_best_vehicle_mix, if_neg h0, find_best_vehicle_mix_free] at h
    cases hfl : freeModeLoop ro (totalDemand ro / (ro.n : ℚ)) (sortByCapacityDesc transport) with
    | some s2 =>
      rw [hfl] at h
      simp only [] at h
      injection h with h2
      injection h2 with h3
      subst h3
      obtain ⟨v, hv, routes, hne, hs⟩ := freeModeLoop_some ro _ _ s2 hfl
      exact ⟨v, sortByCapacityDesc_mem transport v hv, routes, hne, hs⟩
    | none =>
      rw [hfl] at h
      simp only [] at h
      cases hsort : sortByCapacityDesc transport with
      | nil =>
        rw [hsort] at h
        cases h
      | cons v tail =>
        rw [hsort] at h
        simp only [] at h
        by_cases hre : optimize_routes ro v.capacidade 8 = []
        · rw [if_pos hre] at h
          injection h with h2
          cases h2
        · rw [if_neg hre] at h
          injection h with h2
          injection h2 with h3
          refine ⟨v, ?_, optimize_routes ro v.capacidade 8, hre, h3.symm⟩
          exact sortByCapacityDesc_mem transport v (hsort ▸ List.mem_cons_self v tail)

/-- In free mode a non-empty cluster whose every point lies at strictly
positive DC distance always receives a solution when the transport table is
non-empty: either some type passes both filters, or the largest-type
fallback routes the cluster and its result is accepted. -/
lemma fbvm_free_some (ro : RouteOptimizer) (transport : List Vehicle)
    (hn : ro.n ≠ 0) (ht : transport ≠ []) (hpos : ∀ i < ro.n, 0 < ro.distCD i) :
    ∃ s, find_best_vehicle_mix ro transport none = .ok (some s) := by
  cases hfl : freeModeLoop ro (totalDemand ro / (ro.n : ℚ)) (sortByCapacityDesc transport) with
  | some s2 =>
    refine ⟨s2, ?_⟩
    simp only [find_best_vehicle_mix, if_neg hn, find_best_vehicle_mix_free, hfl]
  | none =>
    cases hsort : sortByCapacityDesc transport with
    | nil => exact absurd hsort (sortByCapacityDesc_ne_nil transport ht)
    | cons v tail =>
      have hroutes : optimize_routes ro v.capacidade 8 ≠ [] :=
        optimize_routes_ne_nil ro v.capacidade 8 hn
          ⟨0, Nat.pos_of_ne_zero hn, hpos 0 (Nat.pos_of_ne_zero hn)⟩
      refine ⟨mkFreeSolution ro v (optimize_routes ro v.capacidade 8), ?_⟩
      simp only [find_best_vehicle_mix, if_neg hn, find_best_vehicle_mix_free, hfl]
      simp only [hsort]
      rw [if_neg hroutes]

/-- A fleet whose every row has quantity zero contributes nothing: every row is
skipped by the `Quantidade > 0` test. -/
lemma fixedFleetLoop_zero (ro : RouteOptimizer) (transport : List Vehicle) :
    ∀ (fleet : List FleetRow) (cost : ℚ) (used : List (String × VehicleAlloc))
      (allR : List (List Nat)), (∀ r ∈ fleet, r.quantidade = 0) →
      fixedFleetLoop ro transport fleet cost used allR = .ok (cost, used, allR) := by
  intro fleet
  induction fleet with
  | nil => intro cost used allR h; rfl
  | cons row rest ih =>
    intro cost used allR h
    simp only [fixedFleetLoop]
    rw [if_neg (by rw [h row (List.mem_cons_self _ _)]; exact lt_irrefl 0)]
    exact ih _ _ _ (fun r hr => h r (List.mem_cons_of_mem _ hr))

/-- With an all-zero fixed fleet the selector returns `None` for any cluster. -/
lemma fbvm_allzero (ro : RouteOptimizer) (transport : List Vehicle) (fleet : List FleetRow)
    (hz : ∀ r ∈ fleet, r.quantidade = 0) :
    find_best_vehicle_mix ro transport (some fleet) = .ok none := by
  by_cases h0 : ro.n = 0
  · simp only [find_best_vehicle_mix, if_pos h0]
  · simp only [find_best_vehicle_mix, if_neg h0, find_best_vehicle_mix_fixed]
    rw [fixedFleetLoop_zero ro transport fleet 0 [] [] hz]
    simp only []
    simp

/-- With an all-zero fixed fleet the per-DC loop accumulates nothing (and a
run with DCs but no factories aborts). -/
lemma optimizeClusters_allzero (pdvs : List PDV) (transport : List Vehicle) (labels : List Nat)
    (pdist cdDist fcDist : Nat → Nat → ℚ) (numF : Nat) (fleet : List FleetRow)
    (hz : ∀ r ∈ fleet, r.quantidade = 0) :
    ∀ (idxs : List Nat) (acc : OptAcc),
      optimizeClusters pdvs transport labels (some fleet) pdist cdDist fcDist numF idxs acc
        = if idxs ≠ [] ∧ numF = 0 then none else some acc := by
  intro idxs
  induction idxs with
  | nil => intro acc; simp [optimizeClusters]
  | cons i rest ih =>
    intro acc
    simp only [optimizeClusters]
    by_cases hF : numF = 0
    · rw [if_pos hF, if_pos ⟨List.cons_ne_nil i rest, hF⟩]
    · rw [if_neg hF]
      rw [fbvm_allzero (mkRO pdvs (clusterMembers pdvs.length labels i) (cdDist i) pdist)
        transport fleet hz]
      simp only []
      rw [ih acc, if_neg (fun hc => hF hc.2), if_neg (fun hc => hF hc.2)]

/-- Unfolding the per-DC loop on a head index whose cluster produces a
solution: the solution is accumulated and the loop continues on the tail. -/
lemma optimizeClusters_cons_some (pdvs : List PDV) (transport : List Vehicle) (labels : List Nat)
    (ff : Option (List FleetRow)) (pdist cdDist fcDist : Nat → Nat → ℚ) (numF : Nat)
    (i : Nat) (rest : List Nat) (acc : OptAcc) (sol : MixSolution) (hF : numF ≠ 0)
    (hfb : find_best_vehicle_mix (mkRO pdvs (clusterMembers pdvs.length labels i) (cdDist i) pdist)
      transport ff = .ok (some sol)) :
    optimizeClusters pdvs transport labels ff pdist cdDist fcDist numF (i :: rest) acc =
      optimizeClusters pdvs transport labels ff pdist cdDist fcDist numF rest
        (accumulate acc i (closestFactory fcDist numF i)
          (clusterMembers pdvs.length labels i) sol) := by
  simp only [optimizeClusters]
  rw [if_neg hF, hfb]

/-- The per-DC loop on an empty index list returns the accumulator. -/
lemma optimizeClusters_nil (pdvs : List PDV) (transport : List Vehicle) (labels : List Nat)
    (ff : Option (List FleetRow)) (pdist cdDist fcDist : Nat → Nat → ℚ) (numF : Nat)
    (acc : OptAcc) :
    optimizeClusters pdvs transport labels ff pdist cdDist fcDist numF [] acc = some acc := rfl

/-- Mapping over the index range of a list through `getD` is mapping over the
list. -/
lemma range_map_getD {α β : Type} (l : List α) (d : α) (f : α → β) :
    (List.range l.length).map (fun i => f (l.getD i d)) = l.map f := by
  induction l with
  | nil => rfl
  | cons a t ih =>
    rw [List.length_cons, List.range_succ_eq_map, List.map_cons, List.map_cons, List.map_map]
    rw [← ih]
    congr 1

/-- The distribution centers built by `optimize` carry exactly the size names
of the DC table rows. -/
lemma mkDCs_sizes (cd_data : List CDRow) (centroids : List (ℚ × ℚ)) :
    (mkDCs cd_data centroids).map (fun dc => dc.size) = cd_data.map (fun c => c.tipos) := by
  unfold mkDCs
  rw [List.map_map]
  exact range_map_getD cd_data ⟨"", 0, 0⟩ (fun c => c.tipos)

/-- The distribution centers built by `optimize` carry exactly the monthly
costs of the DC table rows. -/
lemma mkDCs_costs (cd_data : List CDRow) (centroids : List (ℚ × ℚ)) :
    (mkDCs cd_data centroids).map (fun dc => dc.monthly_cost)
      = cd_data.map (fun c => c.custo_mensal) := by
  unfold mkDCs
  rw [List.map_map]
  exact range_map_getD cd_data ⟨"", 0, 0⟩ (fun c => c.custo_mensal)

/-- When at least one routing solution was accumulated, the final assembly
returns a Solution carrying exactly the distribution centers it was given. -/
lemma assembleSolution_dcs (labels : List Nat) (dcs : List DistributionCenter) (storage : ℚ)
    (acc : OptAcc) (h : acc.routing ≠ []) :
    ∃ s, assembleSolution labels dcs storage acc = some s ∧ s.dcs = dcs := by
  unfold assembleSolution
  rw [if_neg h]
  exact ⟨_, rfl, rfl⟩

/-- The haversine intermediate is symmetric in its two coordinate pairs. -/
lemma havA_comm (lat1 lon1 lat2 lon2 : ℝ) :
    havA lat1 lon1 lat2 lon2 = havA lat2 lon2 lat1 lon1 := by
  unfold havA
  have hs : ∀ x y : ℝ, Real.sin ((x - y) / 2) ^ 2 = Real.sin ((y - x) / 2) ^ 2 := by
    intro x y
    rw [show (x - y) / 2 = -((y - x) / 2) by ring, Real.sin_neg]
    ring
  rw [hs (rad lat2) (rad lat1), hs (rad lon2) (rad lon1),
    mul_comm (Real.cos (rad lat1)) (Real.cos (rad lat2))]

/-- The haversine intermediate vanishes on identical coordinates. -/
lemma havA_self (lat lon : ℝ) : havA lat lon lat lon = 0 := by
  unfold havA
  simp

/-- The two-argument arctangent of two square roots is nonnegative. -/
lemma atan2_sqrt_nonneg (a : ℝ) : 0 ≤ atan2 (Real.sqrt a) (Real.sqrt (1 - a)) := by
  unfold atan2
  by_cases hx : 0 < Real.sqrt (1 - a)
  · rw [if_pos hx]
    have hq : (0 : ℝ) ≤ Real.sqrt a / Real.sqrt (1 - a) :=
      div_nonneg (Real.sqrt_nonneg _) (le_of_lt hx)
    calc (0 : ℝ) = Real.arctan 0 := Real.arctan_zero.symm
      _ ≤ Real.arctan (Real.sqrt a / Real.sqrt (1 - a)) :=
        Real.arctan_strictMono.monotone hq
  · rw [if_neg hx, if_neg (not_lt.mpr (Real.sqrt_nonneg _))]
    by_cases hy : 0 < Real.sqrt a
    · rw [if_pos hy]
      positivity
    · rw [if_neg hy, if_neg (not_lt.mpr (Real.sqrt_nonneg _))]

/-- The two-argument arctangent of 0 and 1 is 0. -/
lemma atan2_zero_one : atan2 0 1 = 0 := by
  unfold atan2
  rw [if_pos one_pos]
  simp [Real.arctan_zero]

/-- Concrete fixed-mode evaluation: with one Van and one Truck requested, the
one-point cluster is routed once per type and PDV 0 appears in both route
sets. -/
lemma fbvmA_eval : find_best_vehicle_mix roA transA (some fleetA) = .ok (some mixA) := by
  have hvt : ("Van" == "Truck") = false := by decide
  norm_num [find_best_vehicle_mix, find_best_vehicle_mix_fixed, fixedFleetLoop,
    optimize_routes, optimizeRoutesLoop, extendRoute, findStartPoint, findStartPointAux,
    findNearest, findNearestAux, calculate_route_costs, consecDistance,
    List.range_succ, List.cons_ne_nil, List.find?, hvt, roA, transA, fleetA, van, truck, mixA]

/-- Concrete free-mode evaluation on the one-point cluster with the Van. -/
lemma fbvmV_eval : find_best_vehicle_mix roA [van] none = .ok (some mixV) := by
  have hceil : (⌈(1 : ℚ) / 176⌉ : ℤ) = 1 := by rw [Int.ceil_eq_iff]; norm_num
  norm_num [find_best_vehicle_mix, find_best_vehicle_mix_free, freeModeLoop, mkFreeSolution,
    sortByCapacityDesc, insertDesc, totalDemand, optimize_routes, optimizeRoutesLoop,
    extendRoute, findStartPoint, findStartPointAux, findNearest, findNearestAux,
    calculate_route_costs, consecDistance, List.range_succ, List.cons_ne_nil, hceil,
    roA, van, mixV]

/-- Concrete whole-run evaluation: one PDV, one large DC, free mode. -/
lemma optB_eval :
    optimize pdvsB [van] cdB 1 (fun _ _ => 5) [0] [(1, 1)] (fun _ _ => 0) (fun _ _ => 1) none
      = some solB := by
  have hceil : (⌈(1 : ℚ) / 176⌉ : ℤ) = 1 := by rw [Int.ceil_eq_iff]; norm_num
  norm_num [optimize, optimizeClusters, assembleSolution, mkDCs, storageCosts, initAcc,
    clusterMembers, mkRO, closestFactory, accumulate, bumpQ, bumpN,
    find_best_vehicle_mix, find_best_vehicle_mix_free, freeModeLoop, mkFreeSolution,
    sortByCapacityDesc, insertDesc, totalDemand, optimize_routes, optimizeRoutesLoop,
    extendRoute, findStartPoint, findStartPointAux, findNearest, findNearestAux,
    calculate_route_costs, consecDistance, List.range_succ, List.cons_ne_nil, hceil,
    pdvsB, cdB, van, mixV, solB]

/-- At the antipodal pair (0,0) and (0,180) the unclamped haversine
intermediate equals exactly 1, the boundary of the inverse-trig domain. -/
lemma havA_antipodal : havA 0 0 0 180 = 1 := by
  have h0 : rad 0 = 0 := by unfold rad; ring
  have h180 : rad 180 = Real.pi := by unfold rad; ring
  unfold havA
  rw [h0, h180]
  norm_num [Real.sin_pi_div_two, Real.sin_zero, Real.cos_zero]

/-- C1 (code_bug): in fixed-fleet mode `find_best_vehicle_mix` routes the
whole cluster once per vehicle type with positive count: with one Van and one
Truck requested, the single PDV 0 of the cluster is placed into a route of
each of the two distinct types (and its variable cost is charged twice),
contradicting the every-PDV-in-exactly-one-route property. -/
theorem C1_fixed_mode_duplication :
    find_best_vehicle_mix roA transA (some fleetA) = .ok (some mixA) ∧
    (∀ ma ∈ mixA.vehicles, [0] ∈ ma.2.routes) ∧ "Van" ≠ "Truck" :=
  ⟨fbvmA_eval, by decide, by decide⟩

/-- C2 (counterexample): with one PDV of nonnegative demand 2, capacity 1 > 0
and stop ceiling 1 ≥ 1, `optimize_routes` seeds the route without any
capacity check and returns the route `[0]` of cumulative demand 2 > 1. -/
theorem C2_seed_over_capacity :
    optimize_routes ro1 1 1 = [[0]] ∧ routeSum ro1 [0] = 2 ∧
    ¬(routeSum ro1 [0] ≤ 1) ∧ (∀ i < ro1.n, 0 ≤ ro1.demand i) ∧
    (0 : ℚ) < 1 ∧ (1 : Nat) ≤ 1 := by
  refine ⟨?_, ?_, ?_, ?_, by norm_num, by decide⟩
  · norm_num [optimize_routes, optimizeRoutesLoop, extendRoute, findStartPoint,
      findStartPointAux, findNearest, findNearestAux, List.range_succ, List.cons_ne_nil, ro1]
  · norm_num [routeSum, ro1]
  · norm_num [routeSum, ro1]
  · intro i hi
    norm_num [ro1]

/-- C2 (amended): for every cluster and stop ceiling m ≥ 1, every route
returned by `optimize_routes` has stop count ≤ m unconditionally; and
provided additionally that every single PDV demand is ≤ the capacity
ceiling c (the route seed is added without a capacity check, so an
oversized PDV yields a singleton route over capacity, while still
respecting the stop ceiling), cumulative demand ≤ c. -/
theorem C2_route_ceilings (ro : RouteOptimizer) (cap : ℚ) (maxStops : Nat)
    (hm : 1 ≤ maxStops) :
    (∀ r ∈ optimize_routes ro cap maxStops, r.length ≤ maxStops) ∧
    ((∀ i < ro.n, ro.demand i ≤ cap) →
      ∀ r ∈ optimize_routes ro cap maxStops, routeSum ro r ≤ cap) := by
  constructor
  · intro r hr
    unfold optimize_routes at hr
    by_cases h0 : ro.n = 0
    · rw [if_pos h0] at hr
      cases hr
    · rw [if_neg h0] at hr
      exact optimizeRoutesLoop_length ro cap maxStops hm ro.n (List.range ro.n) r hr
  · intro hle r hr
    unfold optimize_routes at hr
    by_cases h0 : ro.n = 0
    · rw [if_pos h0] at hr
      cases hr
    · rw [if_neg h0] at hr
      exact (optimizeRoutesLoop_bounds ro cap maxStops hm ro.n (List.range ro.n)
        (fun p hp => hle p (List.mem_range.mp hp)) r hr).1

/-- Witness for C2_route_ceilings at the concrete two-point cluster. -/
theorem C2_route_ceilings_witness :
    (∀ r ∈ optimize_routes ro2 2 8, r.length ≤ 8) ∧
    ((∀ i < ro2.n, ro2.demand i ≤ 2) → ∀ r ∈ optimize_routes ro2 2 8, routeSum ro2 r ≤ 2) :=
  C2_route_ceilings ro2 2 8 (by decide)

/-- C3 (confirmed): every Solution returned by `optimize` satisfies
`total_cost = transport_costs + storage_costs` exactly. -/
theorem C3_total_is_sum (pdvs : List PDV) (transport : List Vehicle) (cd_data : List CDRow)
    (numF : Nat) (fcDist : Nat → Nat → ℚ) (labels : List Nat) (centroids : List (ℚ × ℚ))
    (pdist cdDist : Nat → Nat → ℚ) (ff : Option (List FleetRow)) (s : Solution)
    (h : optimize pdvs transport cd_data numF fcDist labels centroids pdist cdDist ff = some s) :
    s.total_cost = s.transport_costs + s.storage_costs := by
  unfold optimize at h
  rcases Option.bind_eq_some.mp h with ⟨acc, hacc, hass⟩
  unfold assembleSolution at hass
  by_cases hr : acc.routing = []
  · rw [if_pos hr] at hass
    cases hass
  · rw [if_neg hr] at hass
    injection hass with h2
    subst h2
    rfl

/-- Witness for C3_total_is_sum at a complete single-DC free-mode run. -/
theorem C3_total_is_sum_witness :
    solB.total_cost = solB.transport_costs + solB.storage_costs :=
  C3_total_is_sum pdvsB [van] cdB 1 (fun _ _ => 5) [0] [(1, 1)] (fun _ _ => 0) (fun _ _ => 1)
    none solB optB_eval

/-- C4 (counterexample): in fixed-fleet mode the reported count is the
user-entered quantity, not `ceil(routes / deliveries_per_month)`: one Truck
with one delivery per month covers 2 routes, so the formula requires
`ceil(2/1) = 2` vehicles, but the returned count is 1 (under-provisioned). -/
theorem C4_fixed_count_not_ceil :
    find_best_vehicle_mix roD [truckD] (some [⟨"Truck", 1⟩]) = .ok (some mixD) ∧
    ((⌈(2 : ℚ) / truckD.entregas_mes⌉ : ℤ) = 2) ∧ ((1 : ℚ) ≠ 2) := by
  refine ⟨?_, by norm_num [truckD], by norm_num⟩
  norm_num [find_best_vehicle_mix, find_best_vehicle_mix_fixed, fixedFleetLoop,
    optimize_routes, optimizeRoutesLoop, extendRoute, findStartPoint, findStartPointAux,
    findNearest, findNearestAux, calculate_route_costs, consecDistance,
    List.range_succ, List.cons_ne_nil, List.find?, roD, truckD, mixD]

/-- C4 (amended): in free mode every returned allocation reports
`count = ceil(route_count / deliveries_per_month)` for its vehicle type; in
fixed mode the count is the user-entered quantity, taken as given. -/
theorem C4_free_count_formula (ro : RouteOptimizer) (transport : List Vehicle) (s : MixSolution)
    (h : find_best_vehicle_mix ro transport none = .ok (some s)) :
    ∀ ma ∈ s.vehicles, ∃ v ∈ transport, ma.1 = v.modal ∧
      ma.2.count = ((⌈(ma.2.routes.length : ℚ) / v.entregas_mes⌉ : ℤ) : ℚ) := by
  obtain ⟨v, hv, routes, hne, rfl⟩ := fbvm_free_shape ro transport s h
  intro ma hma
  simp only [mkFreeSolution, List.mem_singleton] at hma
  subst hma
  exact ⟨v, hv, rfl, rfl⟩

/-- Witness for C4_free_count_formula at a free-mode run returning one Van,
applied to its single allocation entry. -/
theorem C4_free_count_formula_witness :
    ∃ v ∈ [van], ("Van", (⟨1, [[0]]⟩ : VehicleAlloc)).1 = v.modal ∧
      ("Van", (⟨1, [[0]]⟩ : VehicleAlloc)).2.count =
        ((⌈(("Van", (⟨1, [[0]]⟩ : VehicleAlloc)).2.routes.length : ℚ) / v.entregas_mes⌉ : ℤ) : ℚ) :=
  C4_free_count_formula roA [van] mixV fbvmV_eval ("Van", ⟨1, [[0]]⟩)
    (List.mem_singleton.mpr rfl)

/-- C5 (counterexample): a two-point cluster of combined demand 200000 on a
`CD pequeno` row of capacity 150000.  For every distance oracle that assigns
the two points strictly positive DC distances — as the program's haversine
values do, the points being distinct from their centroid (0,0) — `optimize`
returns a Solution whose DC keeps the original `CD pequeno` size: no
capacity check and no tier upgrade occur anywhere in `optimize`. -/
theorem C5_capacity_exceeded_no_upgrade :
    (∀ pdist cdDist fcDist : Nat → Nat → ℚ, (∀ j < 2, 0 < cdDist 0 j) →
      ∃ s, optimize pdvsF2 transF cdF 1 fcDist [0, 0] [(0, 0)] pdist cdDist none = some s ∧
        s.dcs.map (fun dc => dc.size) = ["CD pequeno"]) ∧
    clusterDemand pdvsF2 [0, 0] 0 = 200000 ∧
    (cdF.getD 0 ⟨"", 0, 0⟩).capacidade = 150000 ∧
    ¬((200000 : ℚ) ≤ 150000) := by
  refine ⟨?_, ?_, rfl, by norm_num⟩
  · intro pdist cdDist fcDist hpos
    have hmem : clusterMembers pdvsF2.length [0, 0] 0 = [0, 1] := by decide
    obtain ⟨s0, hs0⟩ := fbvm_free_some
      (mkRO pdvsF2 (clusterMembers pdvsF2.length [0, 0] 0) (cdDist 0) pdist) transF
      (by simp [mkRO, hmem]) (by decide)
      (by
        intro i hi
        simp only [mkRO, hmem, List.length_cons, List.length_nil] at hi
        simp only [mkRO, hmem]
        rcases i with _ | _ | i
        · rw [show ([0, 1] : List Nat).getD 0 0 = 0 from rfl]
          exact hpos 0 (by norm_num)
        · rw [show ([0, 1] : List Nat).getD 1 0 = 1 from rfl]
          exact hpos 1 (by norm_num)
        · exact absurd hi (by omega))
    have hone : (1 : Nat) ≠ 0 := one_ne_zero
    have hcl : optimizeClusters pdvsF2 transF [0, 0] none pdist cdDist fcDist 1 [0]
        (initAcc transF) = some (accumulate (initAcc transF) 0 (closestFactory fcDist 1 0)
          (clusterMembers pdvsF2.length [0, 0] 0) s0) := by
      rw [optimizeClusters_cons_some pdvsF2 transF [0, 0] none pdist cdDist fcDist 1 0 []
        (initAcc transF) s0 hone hs0]
      exact optimizeClusters_nil pdvsF2 transF [0, 0] none pdist cdDist fcDist 1 _
    obtain ⟨s, hs, hdcs⟩ := assembleSolution_dcs [0, 0] (mkDCs cdF [(0, 0)])
      (storageCosts (mkDCs cdF [(0, 0)]))
      (accumulate (initAcc transF) 0 (closestFactory fcDist 1 0)
        (clusterMembers pdvsF2.length [0, 0] 0) s0)
      (by simp [accumulate, initAcc])
    refine ⟨s, ?_, ?_⟩
    · unfold optimize
      rw [show List.range cdF.length = [0] from by decide, hcl]
      simpa using hs
    · rw [hdcs, mkDCs_sizes]
      rfl
  · norm_num [clusterDemand, clusterMembers, pdvsF2, List.range_succ]

/-- C5 (amended): the DC sizes and monthly costs of every returned Solution
are exactly those of the configuration table, unchanged: `optimize` performs
no capacity comparison against cluster demand and no tier upgrade. -/
theorem C5_sizes_passthrough (pdvs : List PDV) (transport : List Vehicle) (cd_data : List CDRow)
    (numF : Nat) (fcDist : Nat → Nat → ℚ) (labels : List Nat) (centroids : List (ℚ × ℚ))
    (pdist cdDist : Nat → Nat → ℚ) (ff : Option (List FleetRow)) (s : Solution)
    (h : optimize pdvs transport cd_data numF fcDist labels centroids pdist cdDist ff = some s) :
    s.dcs.map (fun dc => dc.size) = cd_data.map (fun c => c.tipos) ∧
    s.dcs.map (fun dc => dc.monthly_cost) = cd_data.map (fun c => c.custo_mensal) := by
  unfold optimize at h
  rcases Option.bind_eq_some.mp h with ⟨acc, hacc, hass⟩
  unfold assembleSolution at hass
  by_cases hr : acc.routing = []
  · rw [if_pos hr] at hass
    cases hass
  · rw [if_neg hr] at hass
    injection hass with h2
    subst h2
    exact ⟨mkDCs_sizes cd_data centroids, mkDCs_costs cd_data centroids⟩

/-- Witness for C5_sizes_passthrough at a complete single-DC run. -/
theorem C5_sizes_passthrough_witness :
    solB.dcs.map (fun dc => dc.size) = cdB.map (fun c => c.tipos) ∧
    solB.dcs.map (fun dc => dc.monthly_cost) = cdB.map (fun c => c.custo_mensal) :=
  C5_sizes_passthrough pdvsB [van] cdB 1 (fun _ _ => 5) [0] [(1, 1)] (fun _ _ => 0)
    (fun _ _ => 1) none solB optB_eval

/-- C6 (counterexample): a non-empty cluster whose only PDV lies at DC
distance exactly 0 (a singleton cluster at its own centroid) yields no seed,
so free mode — including the largest-vehicle fallback — produces no routes
and the selector returns `None` despite the non-empty cluster and the
non-empty transport table. -/
theorem C6_zero_distance_null :
    find_best_vehicle_mix ro0 [van] none = .ok none ∧ ro0.n = 1 ∧
    ([van] : List Vehicle) ≠ [] := by
  refine ⟨?_, rfl, by decide⟩
  norm_num [find_best_vehicle_mix, find_best_vehicle_mix_free, freeModeLoop, mkFreeSolution,
    sortByCapacityDesc, insertDesc, totalDemand, optimize_routes, optimizeRoutesLoop,
    extendRoute, findStartPoint, findStartPointAux, findNearest, findNearestAux,
    List.range_succ, List.cons_ne_nil, ro0, van]

/-- C6 (amended): in free mode, for a non-empty cluster whose every point
lies at strictly positive DC distance and a non-empty transport table, the
selector always returns a solution (the largest-type fallback accepts
whatever routing results). -/
theorem C6_fallback_some (ro : RouteOptimizer) (transport : List Vehicle)
    (hn : ro.n ≠ 0) (ht : transport ≠ []) (hpos : ∀ i < ro.n, 0 < ro.distCD i) :
    ∃ s, find_best_vehicle_mix ro transport none = .ok (some s) :=
  fbvm_free_some ro transport hn ht hpos

/-- Witness for C6_fallback_some at the concrete one-point cluster. -/
theorem C6_fallback_some_witness :
    ∃ s, find_best_vehicle_mix roA [van] none = .ok (some s) :=
  C6_fallback_some roA [van] (by decide) (by decide) (fun i _ => by norm_num [roA])

/-- C7 (counterexample): fixed-fleet mode with zero vehicles of every type
makes `optimize` return `None`: no Solution at all is produced, hence no
explicit zero-coverage Solution carrying an unserved-demand field (no such
field exists in the solution record). -/
theorem C7_allzero_fleet_none :
    optimize pdvsB transA cdB 1 (fun _ _ => 5) [0] [(1, 1)] (fun _ _ => 0) (fun _ _ => 1)
      (some fleetG) = none ∧ (∀ r ∈ fleetG, r.quantidade = 0) := by
  refine ⟨?_, by simp [fleetG]⟩
  norm_num [optimize, optimizeClusters, assembleSolution, mkDCs, storageCosts, initAcc,
    clusterMembers, mkRO, closestFactory, accumulate, find_best_vehicle_mix,
    find_best_vehicle_mix_fixed, fixedFleetLoop, List.range_succ, List.cons_ne_nil,
    pdvsB, transA, cdB, fleetG, van, truck]

/-- C7 (amended): for every input whose fixed fleet specifies quantity zero
for every type, `optimize` returns `None` — a no-solution report, not a crash
and not a Solution with an unserved-demand field. -/
theorem C7_allzero_fleet_no_solution (pdvs : List PDV) (transport : List Vehicle)
    (cd_data : List CDRow) (numF : Nat) (fcDist : Nat → Nat → ℚ) (labels : List Nat)
    (centroids : List (ℚ × ℚ)) (pdist cdDist : Nat → Nat → ℚ) (fleet : List FleetRow)
    (hz : ∀ r ∈ fleet, r.quantidade = 0) :
    optimize pdvs transport cd_data numF fcDist labels centroids pdist cdDist (some fleet)
      = none := by
  unfold optimize
  rw [optimizeClusters_allzero pdvs transport labels pdist cdDist fcDist numF fleet hz
    (List.range cd_data.length) (initAcc transport)]
  by_cases hc : List.range cd_data.length ≠ [] ∧ numF = 0
  · rw [if_pos hc]
    rfl
  · rw [if_neg hc]
    simp [assembleSolution, initAcc]

/-- Witness for C7_allzero_fleet_no_solution at a concrete run. -/
theorem C7_allzero_fleet_no_solution_witness :
    optimize pdvsF transF cdF 1 (fun _ _ => 5) [0] [(0, 0)] (fun _ _ => 0) (fun _ _ => 1)
      (some [⟨"Truck", 0⟩]) = none :=
  C7_allzero_fleet_no_solution pdvsF transF cdF 1 (fun _ _ => 5) [0] [(0, 0)] (fun _ _ => 0)
    (fun _ _ => 1) [⟨"Truck", 0⟩]
    (fun r hr => by rw [List.mem_singleton] at hr; subst hr; rfl)

/-- C9 (code_bug): over exact real arithmetic both embedded distance
functions are symmetric, vanish on identical coordinates and are never
negative (and no NaN exists over ℝ); but neither implementation clamps the
intermediate `a` to [0,1] — at the antipodal input (0,0)/(0,180) the
unclamped intermediate sits exactly at the boundary value 1, where any upward
floating-point rounding takes `sqrt(1-a)` and `arcsin(sqrt(a))` out of their
domains. -/
theorem C9_distance_props :
    (∀ lat1 lon1 lat2 lon2 : ℝ,
      haversine_distance lat1 lon1 lat2 lon2 = haversine_distance lat2 lon2 lat1 lon1) ∧
    (∀ lat lon : ℝ, haversine_distance lat lon lat lon = 0) ∧
    (∀ lat1 lon1 lat2 lon2 : ℝ, 0 ≤ haversine_distance lat1 lon1 lat2 lon2) ∧
    (∀ lat1 lon1 lat2 lon2 : ℝ,
      calculate_distance lat1 lon1 lat2 lon2 = calculate_distance lat2 lon2 lat1 lon1) ∧
    (∀ lat lon : ℝ, calculate_distance lat lon lat lon = 0) ∧
    (∀ lat1 lon1 lat2 lon2 : ℝ, 0 ≤ calculate_distance lat1 lon1 lat2 lon2) ∧
    havA 0 0 0 180 = 1 := by
  refine ⟨?_, ?_, ?_, ?_, ?_, ?_, havA_antipodal⟩
  · intro lat1 lon1 lat2 lon2
    unfold haversine_distance
    rw [havA_comm]
  · intro lat lon
    unfold haversine_distance
    rw [havA_self]
    norm_num [Real.sqrt_zero, Real.sqrt_one, atan2_zero_one]
  · intro lat1 lon1 lat2 lon2
    unfold haversine_distance
    exact mul_nonneg (by norm_num)
      (mul_nonneg (by norm_num) (atan2_sqrt_nonneg (havA lat1 lon1 lat2 lon2)))
  · intro lat1 lon1 lat2 lon2
    unfold calculate_distance
    rw [havA_comm]
  · intro lat lon
    unfold calculate_distance
    rw [havA_self]
    norm_num [Real.sqrt_zero, Real.arcsin_zero]
  · intro lat1 lon1 lat2 lon2
    unfold calculate_distance
    exact mul_nonneg (by norm_num)
      (mul_nonneg (by norm_num) (Real.arcsin_nonneg.mpr (Real.sqrt_nonneg _)))

/-- C10 (confirmed): every free-mode solution uses exactly one vehicle type:
the vehicles mapping is a singleton whose routes are the solution's routes. -/
theorem C10_single_type (ro : RouteOptimizer) (transport : List Vehicle) (s : MixSolution)
    (h : find_best_vehicle_mix ro transport none = .ok (some s)) :
    s.vehicles.length = 1 ∧ ∀ ma ∈ s.vehicles, ma.2.routes = s.routes := by
  obtain ⟨v, hv, routes, hne, rfl⟩ := fbvm_free_shape ro transport s h
  refine ⟨rfl, ?_⟩
  intro ma hma
  simp only [mkFreeSolution, List.mem_singleton] at hma
  subst hma
  rfl

/-- Witness for C10_single_type at a free-mode run returning one Van. -/
theorem C10_single_type_witness :
    mixV.vehicles.length = 1 ∧ ∀ ma ∈ mixV.vehicles, ma.2.routes = mixV.routes :=
  C10_single_type roA [van] mixV fbvmV_eval
